import Mathlib

/-!
Verification of the request-serving and streaming subsystem of
`node-pressure-polling` (src/index.js), a demonstration HTTP server with a
shared ticking counter, a polling endpoint, a server-sent-events streaming
endpoint and a metrics endpoint.

The JavaScript source is shallowly embedded: JSON response bodies become an
explicit `Json` value, the mutable module state (`currentValue`, the event
emitter's listener list) becomes a `ServerState` record threaded through a
step function, handler bodies become traces of the externally visible steps
they perform (header writes, awaited delays, chunk writes, listener
registration, response, logging), and wall-clock reads (`Date.now()`,
`new Date().toISOString()`) become explicit parameters.
-/

namespace NodePressurePolling

/-- A JSON value, as produced by the server's handlers.  Numbers in this
program are counter values and epoch-millisecond timestamps, so `Nat`
suffices; objects keep their fields in insertion order, as JavaScript
object literals and `JSON.stringify` do. -/
inductive Json where
  | num (n : Nat)
  | str (s : String)
  | obj (fields : List (String × Json))

/-- Top-level field names of a JSON object, in order. -/
def Json.topKeys : Json → List String
  | .obj fields => fields.map Prod.fst
  | _ => []

/-- Look up a top-level field of a JSON object by name. -/
def Json.lookupKey : Json → String → Option Json
  | .obj fields, key => fields.lookup key
  | _, _ => none

/-- Serialization in the style of `JSON.stringify` for the values this
server writes (no escaping is modelled; the server's payloads contain no
characters needing escapes). -/
def Json.render : Json → String
  | .num n => toString n
  | .str s => "\x22" ++ s ++ "\x22"
  | .obj fields => "\x7b" ++ renderFields fields ++ "\x7d"
where renderFields : List (String × Json) → String
  | [] => ""
  | [(k, v)] => "\x22" ++ k ++ "\x22:" ++ render v
  | (k, v) :: rest => "\x22" ++ k ++ "\x22:" ++ render v ++ "," ++ renderFields rest

/-- The event object the ticker emits (src/index.js line 16):
`{ value: currentValue, timestamp: Date.now() }`. -/
structure TickEvent where
  value : Nat
  timestamp : Nat
deriving Repr, DecidableEq

/-- The tick event as the JSON object the emitter delivers to listeners. -/
def TickEvent.toJson (ev : TickEvent) : Json :=
  Json.obj [("value", Json.num ev.value), ("timestamp", Json.num ev.timestamp)]

/-- The process-wide mutable state of src/index.js: the shared counter
`currentValue` (line 11) and the `dataSource` event emitter's list of
registered `update` listeners (one opaque handle per open SSE connection),
in registration order. -/
structure ServerState where
  currentValue : Nat
  listeners : List Nat
deriving Repr, DecidableEq

/-- The `setInterval` period of the ticker (src/index.js line 17). -/
def tickIntervalMs : Nat := 1000

/-- The ticker's periodic task (src/index.js lines 14-17): increment
`currentValue`, then emit `{ value: currentValue, timestamp: Date.now() }`.
`now` is the wall clock at emit time. -/
def tick (s : ServerState) (now : Nat) : ServerState × TickEvent :=
  let s' : ServerState := { s with currentValue := s.currentValue + 1 }
  (s', { value := s'.currentValue, timestamp := now })

/-- Emitting an `update` event delivers it to every currently registered
listener, in order (Node's `EventEmitter.emit` semantics for
`dataSource.emit` at line 16). -/
def emitUpdate (listeners : List Nat) (ev : TickEvent) : List (Nat × TickEvent) :=
  listeners.map (fun l => (l, ev))

/-- The artificial latency of the simulated Redis lookup
(src/index.js line 25). -/
def redisLookupDelayMs : Nat := 5

/-- `simulateRedisLookup` (src/index.js lines 20-27): after a 5 ms
promise-based timer it resolves `{ value: currentValue, timestamp: Date.now() }`.
`s` is the state and `now` the wall clock at resolution time. -/
def simulateRedisLookup (s : ServerState) (now : Nat) : Json :=
  Json.obj [("value", Json.num s.currentValue), ("timestamp", Json.num now)]

/-- One externally visible step of a request handler's body. -/
inductive HandlerStep where
  | setHeader (name value : String)
  | awaitDelay (ms : Nat)
  | respondJson (body : Json)
  | writeChunk (chunk : String)
  | registerListener
  | removeListener
  | logLine

/-- The additional fixed artificial delay of the polling handler
(src/index.js line 56). -/
def pollExtraDelayMs : Nat := 20

/-- The polling handler's response body (src/index.js lines 58-62):
`{ data, server_processed_at, request_id }` with `data` the awaited
`simulateRedisLookup` result. -/
def pollBody (s : ServerState) (lookupNow : Nat) (iso rid : String) : Json :=
  Json.obj
    [ ("data", simulateRedisLookup s lookupNow)
    , ("server_processed_at", Json.str iso)
    , ("request_id", Json.str rid) ]

/-- The polling handler `app.get("/poll")` (src/index.js lines 51-67) as a
trace: await the simulated lookup, await the fixed 20 ms delay, respond
with the JSON body, log completion.  `lookupNow` is the wall clock when the
lookup resolves, `iso` the ISO timestamp taken when the response is built,
`rid` the request id attached by the middleware. -/
def pollHandler (s : ServerState) (lookupNow : Nat) (iso rid : String) : List HandlerStep :=
  [ HandlerStep.awaitDelay redisLookupDelayMs
  , HandlerStep.awaitDelay pollExtraDelayMs
  , HandlerStep.respondJson (pollBody s lookupNow iso rid)
  , HandlerStep.logLine ]

/-- SSE wire framing of one event (src/index.js lines 79-85 and 89-95):
a single `data:` field carrying the payload, terminated by a blank line. -/
def sseFrame (payload : String) : String :=
  "data: " ++ payload ++ "\n\n"

/-- The first event's envelope written by the SSE handler on open
(src/index.js lines 80-84). -/
def sseFirstEnvelope (s : ServerState) (lookupNow : Nat) (iso rid : String) : Json :=
  Json.obj
    [ ("data", simulateRedisLookup s lookupNow)
    , ("server_processed_at", Json.str iso)
    , ("request_id", Json.str rid) ]

/-- The envelope the per-connection `updateListener` writes for each
received tick event (src/index.js lines 90-94). -/
def sseUpdateEnvelope (ev : TickEvent) (iso rid : String) : Json :=
  Json.obj
    [ ("data", ev.toJson)
    , ("server_processed_at", Json.str iso)
    , ("request_id", Json.str rid) ]

/-- The per-connection `updateListener` (src/index.js lines 88-96) as a
trace: one framed write per received event. -/
def updateListener (ev : TickEvent) (iso rid : String) : List HandlerStep :=
  [ HandlerStep.writeChunk (sseFrame (Json.render (sseUpdateEnvelope ev iso rid))) ]

/-- The OPEN phase of the SSE handler `app.get("/sse")` (src/index.js lines
70-98) as a trace: set the three streaming headers, await the simulated
lookup, write its result as the first framed event, then register the
connection's listener with the emitter. -/
def sseOpenTrace (s : ServerState) (lookupNow : Nat) (iso rid : String) : List HandlerStep :=
  [ HandlerStep.setHeader "Content-Type" "text/event-stream"
  , HandlerStep.setHeader "Cache-Control" "no-cache"
  , HandlerStep.setHeader "Connection" "keep-alive"
  , HandlerStep.awaitDelay redisLookupDelayMs
  , HandlerStep.writeChunk (sseFrame (Json.render (sseFirstEnvelope s lookupNow iso rid)))
  , HandlerStep.registerListener ]

/-- The SSE connection's close handler (src/index.js lines 101-106):
remove this connection's listener from the emitter, then log closure. -/
def sseCloseTrace : List HandlerStep :=
  [ HandlerStep.removeListener, HandlerStep.logLine ]

/-- CPU time counters as returned by `process.cpuUsage()`. -/
structure CpuUsage where
  user : Nat
  system : Nat
deriving Repr, DecidableEq

/-- `process.cpuUsage()` as a JSON object. -/
def CpuUsage.toJson (c : CpuUsage) : Json :=
  Json.obj [("user", Json.num c.user), ("system", Json.num c.system)]

/-- The metrics handler's response body (src/index.js lines 42-47),
materialized fresh from the process counters and the shared counter's value
at the instant of the call. -/
def metricsBody (s : ServerState) (cpu : CpuUsage) (mem : Json) (activeConns : Nat) : Json :=
  Json.obj
    [ ("cpuUsage", cpu.toJson)
    , ("activeRequests", Json.num activeConns)
    , ("memoryUsage", mem)
    , ("currentValue", Json.num s.currentValue) ]

/-- An HTTP method. -/
inductive Method where
  | GET | POST | PUT | DELETE | PATCH | HEAD | OPTIONS
deriving Repr, DecidableEq

/-- The handler a request is dispatched to. -/
inductive RouteTarget where
  | staticPage
  | metricsHandler
  | pollHandlerRoute
  | sseHandlerRoute
  | notFoundHandler
deriving Repr, DecidableEq

/-- Whether a route registered with `app.get` handles a request's method:
Express dispatches GET routes for GET and also for HEAD requests (route
dispatch falls back from head to get when no explicit head route exists). -/
def handlesGetRoute (m : Method) : Prop :=
  m = Method.GET ∨ m = Method.HEAD

instance (m : Method) : Decidable (handlesGetRoute m) :=
  inferInstanceAs (Decidable (_ ∨ _))

/-- The route registrations of src/index.js: every endpoint is registered
with `app.get` for its literal path (lines 41, 51, 70, 110) and so also
serves HEAD requests via the framework's head-to-get fallback, and the
final `app.use` (lines 626-628) catches every request no earlier
registration matched, regardless of method. -/
def route (m : Method) (path : String) : RouteTarget :=
  if handlesGetRoute m ∧ path = "/metrics" then RouteTarget.metricsHandler
  else if handlesGetRoute m ∧ path = "/poll" then RouteTarget.pollHandlerRoute
  else if handlesGetRoute m ∧ path = "/sse" then RouteTarget.sseHandlerRoute
  else if handlesGetRoute m ∧ path = "/" then RouteTarget.staticPage
  else RouteTarget.notFoundHandler

/-- An HTTP response's status and body. -/
structure Response where
  status : Nat
  body : String
deriving Repr, DecidableEq

/-- The catch-all handler's response (src/index.js line 627):
`res.status(404).send("Not found")`. -/
def notFoundResponse : Response :=
  { status := 404, body := "Not found" }

/-- The operations that touch the process-wide state during the life of the
process: the ticker's periodic task, and one constructor per request
handler (the SSE handler splits into its open phase, which registers a
listener, and its close handler, which removes one). -/
inductive Op where
  | tickOp (now : Nat)
  | pollOp
  | sseOpenOp (sub : Nat)
  | sseCloseOp (sub : Nat)
  | metricsOp
  | staticOp
  | notFoundOp
deriving Repr, DecidableEq

/-- Whether an operation is the ticker's periodic task. -/
def Op.isTick : Op → Bool
  | .tickOp _ => true
  | _ => false

/-- Effect of one operation on the process state, translated from
src/index.js: only the ticker writes `currentValue` (line 15); the SSE
handler appends its listener on open (`dataSource.on`, line 98) and removes
it on close (`dataSource.removeListener`, line 102); the polling, metrics,
static-page and not-found handlers only read. -/
def stepState (s : ServerState) : Op → ServerState
  | .tickOp now => (tick s now).1
  | .sseOpenOp sub => { s with listeners := s.listeners ++ [sub] }
  | .sseCloseOp sub => { s with listeners := s.listeners.erase sub }
  | .pollOp => s
  | .metricsOp => s
  | .staticOp => s
  | .notFoundOp => s

/-- Run a sequence of operations from a state. -/
def runOps (s : ServerState) : List Op → ServerState
  | [] => s
  | op :: rest => runOps (stepState s op) rest

/-- The artificial-delay strategies the spec distinguishes. -/
inductive DelayStrategy where
  | cooperative
  | blocking
deriving Repr, DecidableEq

/-- The delay-simulator strategies implemented in src/index.js.  The only
delay simulator in the source is `simulateRedisLookup` (lines 20-27), which
waits with a promise-resolved `setTimeout` — the cooperative strategy; no
busy-wait variant and no configuration flag selecting a strategy exist
anywhere in the file. -/
def implementedDelayStrategies : List DelayStrategy :=
  [DelayStrategy.cooperative]

/-! Helper lemmas. -/

/-- The counter after one operation: a tick adds one, everything else
leaves it unchanged. -/
theorem stepState_currentValue (s : ServerState) (op : Op) :
    (stepState s op).currentValue = s.currentValue + (if op.isTick then 1 else 0) := by
  cases op <;> rfl

/-- The counter never decreases along any sequence of operations. -/
theorem currentValue_le_runOps (s : ServerState) (ops : List Op) :
    s.currentValue ≤ (runOps s ops).currentValue := by
  induction ops generalizing s with
  | nil => exact Nat.le_refl _
  | cons op rest ih =>
    refine Nat.le_trans ?_ (ih (stepState s op))
    rw [stepState_currentValue]
    exact Nat.le_add_right _ _

/-! Claim theorems. -/

/-- Claim C1: SharedCounter (`currentValue`) is mutated only by the ticker's
periodic task, which each 1000 ms period increments it by exactly 1 and
publishes a TickEvent carrying the new counter value and the current
wall-clock time; the counter is monotonically non-decreasing, and no
handler writes to it. -/
theorem C1_counter_mutated_only_by_ticker :
    tickIntervalMs = 1000
    ∧ (∀ (s : ServerState) (op : Op),
        (stepState s op).currentValue =
          s.currentValue + (if op.isTick then 1 else 0))
    ∧ (∀ (s : ServerState) (now : Nat),
        (tick s now).2.value = s.currentValue + 1
        ∧ (tick s now).2.value = (tick s now).1.currentValue
        ∧ (tick s now).2.timestamp = now)
    ∧ (∀ (s : ServerState) (ops : List Op),
        s.currentValue ≤ (runOps s ops).currentValue) :=
  ⟨rfl, stepState_currentValue,
   fun _ _ => ⟨rfl, rfl, rfl⟩,
   currentValue_le_runOps⟩

/-- Claim C2: publishing one TickEvent to K registered listeners yields
exactly K deliveries, one per registered listener in order, every delivery
carries the published event, and the envelope a listener writes has
`data.value` equal to the published counter value. -/
theorem C2_publish_exact_deliveries :
    ∀ (listeners : List Nat) (ev : TickEvent),
      (emitUpdate listeners ev).length = listeners.length
      ∧ (emitUpdate listeners ev).map Prod.fst = listeners
      ∧ (∀ d ∈ emitUpdate listeners ev, d.2 = ev)
      ∧ (∀ (iso rid : String),
          ((sseUpdateEnvelope ev iso rid).lookupKey "data").bind
              (fun j => j.lookupKey "value") = some (Json.num ev.value)) := by
  intro listeners ev
  refine ⟨List.length_map _ _, ?_, ?_, fun _ _ => rfl⟩
  · induction listeners with
    | nil => rfl
    | cons a t ih =>
      simp only [emitUpdate, List.map_cons]
      exact congrArg (List.cons a) ih
  · intro d hd
    simp only [emitUpdate, List.mem_map] at hd
    obtain ⟨l, _, rfl⟩ := hd
    rfl

/-- Witness for C2 at three listeners and the event `⟨7, 99⟩`. -/
theorem C2_publish_exact_deliveries_witness :
    ((10, (⟨7, 99⟩ : TickEvent)).2 = (⟨7, 99⟩ : TickEvent))
    ∧ (emitUpdate [10, 11, 12] ⟨7, 99⟩).length = 3 :=
  ⟨(C2_publish_exact_deliveries [10, 11, 12] ⟨7, 99⟩).2.2.1
      (10, ⟨7, 99⟩) (by simp [emitUpdate]),
   (C2_publish_exact_deliveries [10, 11, 12] ⟨7, 99⟩).1⟩

/-- Claim C3: the SSE handler's OPEN phase sets the three streaming headers,
computes one simulated-lookup result and writes it as the first event in
the same JSON envelope as the polling handler, and only then registers the
connection's listener; each event is framed as a `data:` line carrying the
JSON payload followed by a blank-line terminator, and the listener writes
exactly one framed event per received TickEvent. -/
theorem C3_sse_open_phase :
    ∀ (s : ServerState) (lookupNow : Nat) (iso rid : String),
      sseOpenTrace s lookupNow iso rid =
        [ HandlerStep.setHeader "Content-Type" "text/event-stream"
        , HandlerStep.setHeader "Cache-Control" "no-cache"
        , HandlerStep.setHeader "Connection" "keep-alive"
        , HandlerStep.awaitDelay redisLookupDelayMs
        , HandlerStep.writeChunk
            (sseFrame (Json.render (sseFirstEnvelope s lookupNow iso rid)))
        , HandlerStep.registerListener ]
      ∧ sseFirstEnvelope s lookupNow iso rid = pollBody s lookupNow iso rid
      ∧ (sseFirstEnvelope s lookupNow iso rid).topKeys =
          ["data", "server_processed_at", "request_id"]
      ∧ (∀ payload, sseFrame payload = "data: " ++ payload ++ "\n\n")
      ∧ (∀ ev, updateListener ev iso rid =
          [HandlerStep.writeChunk
            (sseFrame (Json.render (sseUpdateEnvelope ev iso rid)))]) :=
  fun _ _ _ _ => ⟨rfl, rfl, rfl, fun _ => rfl, fun _ => rfl⟩

/-- Claim C4: the polling handler awaits the simulated lookup (5 ms), then
the fixed 20 ms delay, then responds with a JSON body whose fields are
exactly `data` (the lookup result), `server_processed_at` (the ISO
timestamp taken when the response is built, after both delays) and
`request_id` (the middleware-assigned id), and then logs completion. -/
theorem C4_poll_handler_behaviour :
    ∀ (s : ServerState) (lookupNow : Nat) (iso rid : String),
      pollHandler s lookupNow iso rid =
        [ HandlerStep.awaitDelay redisLookupDelayMs
        , HandlerStep.awaitDelay pollExtraDelayMs
        , HandlerStep.respondJson (pollBody s lookupNow iso rid)
        , HandlerStep.logLine ]
      ∧ redisLookupDelayMs = 5
      ∧ pollExtraDelayMs = 20
      ∧ (pollBody s lookupNow iso rid).topKeys =
          ["data", "server_processed_at", "request_id"]
      ∧ (pollBody s lookupNow iso rid).lookupKey "data" =
          some (simulateRedisLookup s lookupNow)
      ∧ (pollBody s lookupNow iso rid).lookupKey "server_processed_at" =
          some (Json.str iso)
      ∧ (pollBody s lookupNow iso rid).lookupKey "request_id" =
          some (Json.str rid) :=
  fun _ _ _ _ => ⟨rfl, rfl, rfl, rfl, rfl, rfl, rfl⟩

/-- Claim C5: on close, the connection's listener is removed from the
emitter and closure is logged; removal of an absent listener is a no-op,
and removing a present listener leaves the registry exactly one member
smaller with every other listener unaffected. -/
theorem C5_close_unregisters (l : List Nat) (v sub : Nat) :
    (sub ∉ l → stepState ⟨v, l⟩ (Op.sseCloseOp sub) = ⟨v, l⟩)
    ∧ (sub ∈ l →
        (stepState ⟨v, l⟩ (Op.sseCloseOp sub)).listeners.length + 1 = l.length)
    ∧ (∀ x, x ≠ sub →
        (x ∈ (stepState ⟨v, l⟩ (Op.sseCloseOp sub)).listeners ↔ x ∈ l))
    ∧ sseCloseTrace = [HandlerStep.removeListener, HandlerStep.logLine] := by
  refine ⟨?_, ?_, ?_, rfl⟩
  · intro h
    simp only [stepState, List.erase_of_not_mem h]
  · intro h
    simpa [stepState] using List.length_erase_add_one h
  · intro x hx
    simpa [stepState] using List.mem_erase_of_ne hx

/-- Witness for C5: closing listener 5 of the registry `[4, 5]` leaves
`[4]`; removing the absent listener 9 changes nothing. -/
theorem C5_close_unregisters_witness :
    ((stepState ⟨0, [4, 5]⟩ (Op.sseCloseOp 5)).listeners.length + 1 = [4, 5].length)
    ∧ (4 ∈ (stepState ⟨0, [4, 5]⟩ (Op.sseCloseOp 5)).listeners ↔ 4 ∈ [4, 5])
    ∧ stepState ⟨0, [4, 5]⟩ (Op.sseCloseOp 9) = ⟨0, [4, 5]⟩ :=
  ⟨(C5_close_unregisters [4, 5] 0 5).2.1 (by decide),
   (C5_close_unregisters [4, 5] 0 5).2.2.1 4 (by decide),
   (C5_close_unregisters [4, 5] 0 9).1 (by decide)⟩

/-- Claim C6: the router dispatches by exact path match — `/` to the static
page, `/metrics` to the metrics handler, `/poll` to the polling handler,
`/sse` to the streaming handler — and every other path gets status 404 with
body "Not found". -/
theorem C6_router_dispatch :
    route Method.GET "/" = RouteTarget.staticPage
    ∧ route Method.GET "/metrics" = RouteTarget.metricsHandler
    ∧ route Method.GET "/poll" = RouteTarget.pollHandlerRoute
    ∧ route Method.GET "/sse" = RouteTarget.sseHandlerRoute
    ∧ (∀ (m : Method) (p : String),
        p ≠ "/" → p ≠ "/metrics" → p ≠ "/poll" → p ≠ "/sse" →
        route m p = RouteTarget.notFoundHandler)
    ∧ notFoundResponse.status = 404
    ∧ notFoundResponse.body = "Not found" := by
  refine ⟨by decide, by decide, by decide, by decide, ?_, rfl, rfl⟩
  intro m p h1 h2 h3 h4
  unfold route
  rw [if_neg (fun hc => h2 hc.2), if_neg (fun hc => h3 hc.2),
      if_neg (fun hc => h4 hc.2), if_neg (fun hc => h1 hc.2)]

/-- Witness for C6: GET of an unregistered path is dispatched to the 404
catch-all. -/
theorem C6_router_dispatch_witness :
    route Method.GET "/unknown" = RouteTarget.notFoundHandler :=
  C6_router_dispatch.2.2.2.2.1 Method.GET "/unknown"
    (by decide) (by decide) (by decide) (by decide)

/-- Claim C7: the metrics response is a fresh JSON object with exactly the
fields `cpuUsage` (with `user` and `system`), `activeRequests`,
`memoryUsage` and `currentValue`, where `currentValue` equals the shared
counter's value at the instant of the call. -/
theorem C7_metrics_snapshot :
    ∀ (s : ServerState) (cpu : CpuUsage) (mem : Json) (activeConns : Nat),
      (metricsBody s cpu mem activeConns).topKeys =
        ["cpuUsage", "activeRequests", "memoryUsage", "currentValue"]
      ∧ (metricsBody s cpu mem activeConns).lookupKey "currentValue" =
          some (Json.num s.currentValue)
      ∧ (metricsBody s cpu mem activeConns).lookupKey "cpuUsage" =
          some (Json.obj [("user", Json.num cpu.user), ("system", Json.num cpu.system)])
      ∧ (metricsBody s cpu mem activeConns).lookupKey "activeRequests" =
          some (Json.num activeConns)
      ∧ (metricsBody s cpu mem activeConns).lookupKey "memoryUsage" = some mem :=
  fun _ _ _ _ => ⟨rfl, rfl, rfl, rfl, rfl⟩

/-- Claim C8 counterexample: at counter value 3 and clock 1000 the simulated
lookup's result has no field named `observedAtEpochMillis`; its fields are
`value` and `timestamp`. -/
theorem C8_lookup_field_name_counterexample :
    (simulateRedisLookup ⟨3, []⟩ 1000).lookupKey "observedAtEpochMillis" = none
    ∧ (simulateRedisLookup ⟨3, []⟩ 1000).topKeys = ["value", "timestamp"] :=
  ⟨rfl, rfl⟩

/-- Claim C8 (amended): the delay simulator takes no input and returns
`\x7b value: SharedCounter, timestamp: now \x7d` — the current counter value
paired with a field named `timestamp` holding the current epoch-milliseconds
time — after an artificial delay of 5 ms. -/
theorem C8_lookup_shape_amended :
    ∀ (s : ServerState) (now : Nat),
      simulateRedisLookup s now =
        Json.obj [("value", Json.num s.currentValue), ("timestamp", Json.num now)]
      ∧ (simulateRedisLookup s now).lookupKey "value" = some (Json.num s.currentValue)
      ∧ (simulateRedisLookup s now).lookupKey "timestamp" = some (Json.num now)
      ∧ (simulateRedisLookup s now).lookupKey "observedAtEpochMillis" = none
      ∧ redisLookupDelayMs = 5 :=
  fun _ _ => ⟨rfl, rfl, rfl, rfl, rfl⟩

/-- Claim C9 counterexample: the blocking (busy-wait) delay strategy is not
among the strategies the source implements, so no configurable choice of
the two strategies exists. -/
theorem C9_no_blocking_strategy_counterexample :
    implementedDelayStrategies.contains DelayStrategy.blocking = false :=
  rfl

/-- Claim C9 (amended): the program implements only the cooperative
(non-blocking) delay strategy; the blocking busy-wait variant is absent and
no configuration selects between strategies. -/
theorem C9_only_cooperative_strategy :
    implementedDelayStrategies = [DelayStrategy.cooperative]
    ∧ implementedDelayStrategies.contains DelayStrategy.blocking = false
    ∧ implementedDelayStrategies.length = 1 :=
  ⟨rfl, rfl, rfl⟩

/-- Claim C10 counterexample: HEAD /poll does not fall through to the 404
catch-all — the framework's head-to-get fallback dispatches it to the
polling handler, so an endpoint handler does run for this non-GET request. -/
theorem C10_head_poll_counterexample :
    route Method.HEAD "/poll" = RouteTarget.pollHandlerRoute
    ∧ route Method.HEAD "/metrics" = RouteTarget.metricsHandler := by
  exact ⟨by decide, by decide⟩

/-- Claim C10 (amended): a request whose method is neither GET nor HEAD
reaches no endpoint handler and is dispatched to the catch-all, whose
response has status 404 and body "Not found", for every path including the
registered ones; HEAD requests to registered paths, by contrast, are
dispatched to the GET-registered endpoint handlers. -/
theorem C10_non_get_head_falls_through (m : Method) (p : String)
    (h1 : m ≠ Method.GET) (h2 : m ≠ Method.HEAD) :
    route m p = RouteTarget.notFoundHandler
    ∧ notFoundResponse.status = 404
    ∧ notFoundResponse.body = "Not found"
    ∧ route Method.HEAD "/poll" = RouteTarget.pollHandlerRoute := by
  refine ⟨?_, rfl, rfl, by decide⟩
  unfold route
  rw [if_neg (fun hc => hc.1.elim h1 h2), if_neg (fun hc => hc.1.elim h1 h2),
      if_neg (fun hc => hc.1.elim h1 h2), if_neg (fun hc => hc.1.elim h1 h2)]

/-- Witness for C10 (amended): POST /poll is dispatched to the 404
catch-all. -/
theorem C10_non_get_head_falls_through_witness :
    route Method.POST "/poll" = RouteTarget.notFoundHandler
    ∧ notFoundResponse.status = 404
    ∧ notFoundResponse.body = "Not found"
    ∧ route Method.HEAD "/poll" = RouteTarget.pollHandlerRoute :=
  C10_non_get_head_falls_through Method.POST "/poll" (by decide) (by decide)

end NodePressurePolling
